import Mathlib

/-!
Verification development for the gencode-backmap feature-tree core
(`src/featureTree.hh`, `src/annotationSet.hh`).

The C++ data model is shallowly embedded: `GxfFeature` records are plain
structures, `FeatureNode` trees are a nested inductive, pointer-optional
fields become `Option`, vectors become `List`, and mutating methods become
pure functions returning the updated value.  Methods whose bodies are inline
in the headers are translated directly; methods only declared in the headers
(bodies in the absent `.cc` files) are modelled from the specification and
marked as such in their doc comments.
-/

set_option maxHeartbeats 1000000

/-- Remap status classification.
Modelled from the spec: `remapStatus.hh` is not part of the provided sources.
The spec requires at least: not-yet-determined (`NONE`), fully mapped,
partially mapped, deleted, and an undetermined/excluded variant used when the
source sequence was not in the genomic map (`NO_SEQ_MAP`), plus the forced
gene-conflict / gene-size-change states mentioned in `featureTree.hh`. -/
inductive RemapStatus where
  | REMAP_STATUS_NONE
  | REMAP_STATUS_FULL
  | REMAP_STATUS_PARTIAL
  | REMAP_STATUS_DELETED
  | REMAP_STATUS_NO_SEQ_MAP
  | REMAP_STATUS_GENE_CONFLICT
  | REMAP_STATUS_GENE_SIZE_CHANGE
deriving DecidableEq, Repr

export RemapStatus (REMAP_STATUS_NONE REMAP_STATUS_FULL REMAP_STATUS_PARTIAL
  REMAP_STATUS_DELETED REMAP_STATUS_NO_SEQ_MAP REMAP_STATUS_GENE_CONFLICT
  REMAP_STATUS_GENE_SIZE_CHANGE)

/-- Target status classification.
Modelled from the spec: `remapStatus.hh` is not part of the provided sources.
The spec requires at least: not-applicable, lost, new and overlap-found. -/
inductive TargetStatus where
  | TARGET_STATUS_NA
  | TARGET_STATUS_NEW
  | TARGET_STATUS_LOST
  | TARGET_STATUS_OVERLAP
deriving DecidableEq, Repr

export TargetStatus (TARGET_STATUS_NA TARGET_STATUS_NEW TARGET_STATUS_LOST
  TARGET_STATUS_OVERLAP)

/-- A flat attributed interval record, as produced by the external GxF parser
(`gxf.hh` is outside the verified core; this carries exactly the fields the
spec lists: type tag, sequence id, interval, strand, source flag, and a
string-keyed attribute bag). -/
structure GxfFeature where
  fType : String
  fSeqid : String
  fStart : Int
  fEnd : Int
  fStrand : String
  fSource : String
  fAttrs : List (String × String)
deriving DecidableEq, Repr

namespace GxfFeature

/-- Feature type tag for genes. -/
def GENE : String := "gene"

/-- Feature type tag for transcripts. -/
def TRANSCRIPT : String := "transcript"

/-- Feature type tag for exons. -/
def EXON : String := "exon"

/-- Manual (Havana) source flag value. -/
def SOURCE_HAVANA : String := "HAVANA"

/-- Automatic (Ensembl) source flag value. -/
def SOURCE_ENSEMBL : String := "ENSEMBL"

/-- Set (replace or add) an attribute value in the record's attribute bag. -/
def setAttr (f : GxfFeature) (key value : String) : GxfFeature :=
  { f with fAttrs := (key, value) :: f.fAttrs.filter (fun kv => kv.1 ≠ key) }

end GxfFeature

/-- Remap status attribute name.  Modelled from the spec: the constant's
value is defined in a `.cc` file not in the provided sources. -/
def REMAP_STATUS_ATTR : String := "remap_status"

/-- Target status attribute name.  Modelled from the spec: the constant's
value is defined in a `.cc` file not in the provided sources. -/
def REMAP_TARGET_STATUS_ATTR : String := "remap_target_status"

/-- Number-of-mappings attribute name.  Modelled from the spec: the
constant's value is defined in a `.cc` file not in the provided sources. -/
def REMAP_NUM_MAPPINGS_ATTR : String := "remap_num_mappings"

/-- Render a remap status for attribute stamping.  Modelled from the spec:
the rendering lives in `remapStatus.cc`, not in the provided sources. -/
def remapStatusToStr : RemapStatus → String
  | REMAP_STATUS_NONE => "none"
  | REMAP_STATUS_FULL => "full"
  | REMAP_STATUS_PARTIAL => "partial"
  | REMAP_STATUS_DELETED => "deleted"
  | REMAP_STATUS_NO_SEQ_MAP => "no_seq_map"
  | REMAP_STATUS_GENE_CONFLICT => "gene_conflict"
  | REMAP_STATUS_GENE_SIZE_CHANGE => "gene_size_change"

/-- Render a target status for attribute stamping.  Modelled from the spec:
the rendering lives in `remapStatus.cc`, not in the provided sources. -/
def targetStatusToStr : TargetStatus → String
  | TARGET_STATUS_NA => "na"
  | TARGET_STATUS_NEW => "new"
  | TARGET_STATUS_LOST => "lost"
  | TARGET_STATUS_OVERLAP => "overlap"

/-- `FeatureNode`: tree container for a `GxfFeature` object and children
(`featureTree.hh`).  The parent back-pointer of the C++ class is redundant
with the tree shape and is modelled separately (see the arena model of
`addChild` below); the remaining fields are carried verbatim. -/
inductive FeatureNode : Type where
  | mk (fFeature : GxfFeature) (fRemapStatus : RemapStatus)
       (fTargetStatus : TargetStatus) (fNumMappings : Int)
       (fChildren : List FeatureNode) : FeatureNode

namespace FeatureNode

/-- The owned feature record. -/
def fFeature : FeatureNode → GxfFeature
  | .mk f _ _ _ _ => f

/-- The node's remap status field. -/
def fRemapStatus : FeatureNode → RemapStatus
  | .mk _ rs _ _ _ => rs

/-- The node's target status field. -/
def fTargetStatus : FeatureNode → TargetStatus
  | .mk _ _ ts _ _ => ts

/-- Number of locations the feature was mapped to. -/
def fNumMappings : FeatureNode → Int
  | .mk _ _ _ nm _ => nm

/-- The ordered list of child nodes. -/
def fChildren : FeatureNode → List FeatureNode
  | .mk _ _ _ _ cs => cs

/-- is this a gene? (`featureTree.hh` `isGene`) -/
def isGene (n : FeatureNode) : Bool :=
  n.fFeature.fType = GxfFeature.GENE

/-- is this a transcript? (`featureTree.hh` `isTranscript`) -/
def isTranscript (n : FeatureNode) : Bool :=
  n.fFeature.fType = GxfFeature.TRANSCRIPT

/-- is this an exon? (`featureTree.hh` `isExon`) -/
def isExon (n : FeatureNode) : Bool :=
  n.fFeature.fType = GxfFeature.EXON

/-- is this a gene or transcript? (`featureTree.hh` `isGeneOrTranscript`) -/
def isGeneOrTranscript (n : FeatureNode) : Bool :=
  n.isGene || n.isTranscript

/-- set remap status to specified value (`featureTree.hh` `setRemapStatus`,
non-recursive: only this node's field is written). -/
def setRemapStatus (remapStatus : RemapStatus) : FeatureNode → FeatureNode
  | .mk f _ ts nm cs => .mk f remapStatus ts nm cs

/-- Set the target status, not recursive (`featureTree.hh`
`setTargetStatus`; body in `featureTree.cc`, modelled from the spec: touches
only this node). -/
def setTargetStatus (targetStatus : TargetStatus) : FeatureNode → FeatureNode
  | .mk f rs _ nm cs => .mk f rs targetStatus nm cs

end FeatureNode

mutual

/-- Recursively set the remap status.  Modelled from the spec: declared in
`featureTree.hh`, body in `featureTree.cc`; per the spec it overwrites the
status on this node and all descendants. -/
def FeatureNode.rsetRemapStatus (remapStatus : RemapStatus) :
    FeatureNode → FeatureNode
  | .mk f _ ts nm cs => .mk f remapStatus ts nm (rsetRemapStatusL remapStatus cs)

/-- List worker for `FeatureNode.rsetRemapStatus`. -/
def rsetRemapStatusL (remapStatus : RemapStatus) :
    List FeatureNode → List FeatureNode
  | [] => []
  | c :: cs =>
      FeatureNode.rsetRemapStatus remapStatus c :: rsetRemapStatusL remapStatus cs

end

mutual

/-- Recursively set the target status.  Modelled from the spec: declared in
`featureTree.hh`, body in `featureTree.cc`; per the spec it overwrites the
status on this node and all descendants. -/
def FeatureNode.rsetTargetStatus (targetStatus : TargetStatus) :
    FeatureNode → FeatureNode
  | .mk f rs _ nm cs => .mk f rs targetStatus nm (rsetTargetStatusL targetStatus cs)

/-- List worker for `FeatureNode.rsetTargetStatus`. -/
def rsetTargetStatusL (targetStatus : TargetStatus) :
    List FeatureNode → List FeatureNode
  | [] => []
  | c :: cs =>
      FeatureNode.rsetTargetStatus targetStatus c :: rsetTargetStatusL targetStatus cs

end

/-- set the remap number of mappings attribute on this node (`featureTree.hh`
`setNumMappingsAttr`; body in `featureTree.cc`, modelled from the spec:
stamps the in-memory mapping count onto the node's own record copy). -/
def FeatureNode.setNumMappingsAttr : FeatureNode → FeatureNode
  | .mk f rs ts nm cs =>
      .mk (f.setAttr REMAP_NUM_MAPPINGS_ATTR (toString nm)) rs ts nm cs

mutual

/-- recursively set the remap status attribute (`featureTree.hh`
`rsetRemapStatusAttr`; body in `featureTree.cc`, modelled from the spec:
recursively stamps the current in-memory remap status onto each node's own
record copy). -/
def FeatureNode.rsetRemapStatusAttr : FeatureNode → FeatureNode
  | .mk f rs ts nm cs =>
      .mk (f.setAttr REMAP_STATUS_ATTR (remapStatusToStr rs)) rs ts nm
        (rsetRemapStatusAttrL cs)

/-- List worker for `FeatureNode.rsetRemapStatusAttr`. -/
def rsetRemapStatusAttrL : List FeatureNode → List FeatureNode
  | [] => []
  | c :: cs => c.rsetRemapStatusAttr :: rsetRemapStatusAttrL cs

end

mutual

/-- recursively set the target status attribute (`featureTree.hh`
`rsetTargetStatusAttr`; body in `featureTree.cc`, modelled from the spec:
recursively stamps the current in-memory target status onto each node's own
record copy). -/
def FeatureNode.rsetTargetStatusAttr : FeatureNode → FeatureNode
  | .mk f rs ts nm cs =>
      .mk (f.setAttr REMAP_TARGET_STATUS_ATTR (targetStatusToStr ts)) rs ts nm
        (rsetTargetStatusAttrL cs)

/-- List worker for `FeatureNode.rsetTargetStatusAttr`. -/
def rsetTargetStatusAttrL : List FeatureNode → List FeatureNode
  | [] => []
  | c :: cs => c.rsetTargetStatusAttr :: rsetTargetStatusAttrL cs

end

mutual

/-- recursively get a list of features matching the specified filter
(`featureTree.hh` `getMatching`, inline): if the node's record passes the
filter it is appended to `hits`, then each child is visited in order.  The
C++ accumulates into a caller-supplied vector; here the function returns the
final vector. -/
def FeatureNode.getMatching (hits : List GxfFeature)
    (filter : GxfFeature → Bool) : FeatureNode → List GxfFeature
  | .mk f _ _ _ cs =>
      getMatchingL (if filter f then hits ++ [f] else hits) filter cs

/-- List worker for `FeatureNode.getMatching` (the C++ `for` loop over
`fChildren`). -/
def getMatchingL (hits : List GxfFeature) (filter : GxfFeature → Bool) :
    List FeatureNode → List GxfFeature
  | [] => hits
  | c :: cs => getMatchingL (c.getMatching hits filter) filter cs

end

mutual

/-- Pre-order listing of the records of a subtree: the node's own record,
then each child's listing in insertion order.  This is the specification-side
description of traversal order, used to state the `getMatching` claim. -/
def FeatureNode.preorder : FeatureNode → List GxfFeature
  | .mk f _ _ _ cs => f :: preorderL cs

/-- List worker for `FeatureNode.preorder`. -/
def preorderL : List FeatureNode → List GxfFeature
  | [] => []
  | c :: cs => c.preorder ++ preorderL cs

end

/-- `ResultFeatureTrees`: trees resulting from a map (`featureTree.hh`).
`src` is a non-owned reference to the source tree; `mapped`, `unmapped` and
`target` are the optional owned result subtrees (C++ nullable pointers become
`Option`). -/
structure ResultFeatureTrees where
  src : Option FeatureNode
  mapped : Option FeatureNode
  unmapped : Option FeatureNode
  target : Option FeatureNode

namespace ResultFeatureTrees

/-- get remap status from either mapped, unmapped, or target
(`featureTree.hh` `getRemapStatus`, inline). -/
def getRemapStatus (r : ResultFeatureTrees) : RemapStatus :=
  match r.mapped with
  | some mapped => mapped.fRemapStatus
  | none =>
    match r.unmapped with
    | some unmapped => unmapped.fRemapStatus
    | none =>
      match r.target with
      | some target => target.fRemapStatus
      | none => REMAP_STATUS_DELETED

/-- get target status from either mapped, unmapped, or target
(`featureTree.hh` `getTargetStatus`, inline). -/
def getTargetStatus (r : ResultFeatureTrees) : TargetStatus :=
  match r.mapped with
  | some mapped => mapped.fTargetStatus
  | none =>
    match r.unmapped with
    | some unmapped => unmapped.fTargetStatus
    | none =>
      match r.target with
      | some target => target.fTargetStatus
      | none => TARGET_STATUS_LOST

/-- get number of mappings from either mapped or unmapped
(`featureTree.hh` `getNumMappings`, inline). -/
def getNumMappings (r : ResultFeatureTrees) : Int :=
  match r.mapped with
  | some mapped => mapped.fNumMappings
  | none =>
    match r.unmapped with
    | some unmapped => unmapped.fNumMappings
    | none => 0

/-- recursively set the remap status on mapped and unmapped
(`featureTree.hh` `ResultFeatureTrees::rsetRemapStatus`, inline). -/
def rsetRemapStatus (r : ResultFeatureTrees) (remapStatus : RemapStatus) :
    ResultFeatureTrees :=
  { r with mapped := r.mapped.map (FeatureNode.rsetRemapStatus remapStatus),
           unmapped := r.unmapped.map (FeatureNode.rsetRemapStatus remapStatus) }

/-- set target status on mapped and unmapped trees
(`featureTree.hh` `ResultFeatureTrees::setTargetStatus`, inline). -/
def setTargetStatus (r : ResultFeatureTrees) (targetStatus : TargetStatus) :
    ResultFeatureTrees :=
  { r with mapped := r.mapped.map (FeatureNode.setTargetStatus targetStatus),
           unmapped := r.unmapped.map (FeatureNode.setTargetStatus targetStatus) }

/-- recursively set target status on trees
(`featureTree.hh` `ResultFeatureTrees::rsetTargetStatus`, inline). -/
def rsetTargetStatus (r : ResultFeatureTrees) (targetStatus : TargetStatus) :
    ResultFeatureTrees :=
  { r with mapped := r.mapped.map (FeatureNode.rsetTargetStatus targetStatus),
           unmapped := r.unmapped.map (FeatureNode.rsetTargetStatus targetStatus) }

/-- recursively set the target status attribute
(`featureTree.hh` `ResultFeatureTrees::rsetTargetStatusAttr`, inline). -/
def rsetTargetStatusAttr (r : ResultFeatureTrees) : ResultFeatureTrees :=
  { r with mapped := r.mapped.map FeatureNode.rsetTargetStatusAttr,
           unmapped := r.unmapped.map FeatureNode.rsetTargetStatusAttr }

/-- set the remap number of mappings attribute (not recursive)
(`featureTree.hh` `ResultFeatureTrees::setNumMappingsAttr`, inline). -/
def setNumMappingsAttr (r : ResultFeatureTrees) : ResultFeatureTrees :=
  { r with mapped := r.mapped.map FeatureNode.setNumMappingsAttr,
           unmapped := r.unmapped.map FeatureNode.setNumMappingsAttr }

/-- recursively set the remap status attribute
(`featureTree.hh` `ResultFeatureTrees::rsetRemapStatusAttr`, inline). -/
def rsetRemapStatusAttr (r : ResultFeatureTrees) : ResultFeatureTrees :=
  { r with mapped := r.mapped.map FeatureNode.rsetRemapStatusAttr,
           unmapped := r.unmapped.map FeatureNode.rsetRemapStatusAttr }

/-- The remap statuses of the children of the present result trees, the
subjects of `anyChildWithRemapStatus` / `allChildWithRemapStatus`
(`featureTree.hh` declares both privately; bodies in `featureTree.cc`). -/
def childRemapStatuses (r : ResultFeatureTrees) : List RemapStatus :=
  (match r.mapped with
   | some mapped => mapped.fChildren.map FeatureNode.fRemapStatus
   | none => []) ++
  (match r.unmapped with
   | some unmapped => unmapped.fChildren.map FeatureNode.fRemapStatus
   | none => [])

/-- Does a child remap status count as mapped (fully or partially)? -/
def statusMapped (s : RemapStatus) : Bool :=
  s = REMAP_STATUS_FULL || s = REMAP_STATUS_PARTIAL

/-- determine gene or transcript remap status from children
(`featureTree.hh` declares `calcBoundingFeatureRemapStatus`; body in
`featureTree.cc`).  Modelled from the spec: bottom-up aggregation — when the
source sequence was not in the mapping the children cannot be blamed and the
undetermined/excluded variant is returned; otherwise fully-mapped when all
qualifying children are fully mapped, partially-mapped when some but not all
children mapped, deleted when no children mapped.  GENE_CONFLICT and
GENE_SIZE_CHANGE are forced by the caller, not computed here. -/
def calcBoundingFeatureRemapStatus (r : ResultFeatureTrees)
    (srcSeqInMapping : Bool) : RemapStatus :=
  if !srcSeqInMapping then
    REMAP_STATUS_NO_SEQ_MAP
  else if (r.childRemapStatuses).any statusMapped then
    (if (r.childRemapStatuses).all (fun s => s = REMAP_STATUS_FULL) then
      REMAP_STATUS_FULL
    else
      REMAP_STATUS_PARTIAL)
  else
    REMAP_STATUS_DELETED

/-- set remap status on a bounding feature
(`featureTree.hh` `setBoundingFeatureRemapStatus`, inline): compute the
status once via `calcBoundingFeatureRemapStatus`, then assign it
(non-recursively) to whichever of mapped and unmapped are present. -/
def setBoundingFeatureRemapStatus (r : ResultFeatureTrees)
    (srcSeqInMapping : Bool) : ResultFeatureTrees :=
  let remapStatus := r.calcBoundingFeatureRemapStatus srcSeqInMapping
  { r with mapped := r.mapped.map (FeatureNode.setRemapStatus remapStatus),
           unmapped := r.unmapped.map (FeatureNode.setRemapStatus remapStatus) }

end ResultFeatureTrees

/-- `TransMappedFeature`: set of mapped and unmapped features resulting from
transmap; a feature may be split when mapped, hence vectors
(`featureTree.hh`). -/
structure TransMappedFeature where
  src : Option FeatureNode
  mapped : List FeatureNode
  unmapped : List FeatureNode

namespace TransMappedFeature

/-- compute status for a transmapped feature
(`featureTree.hh` declares `calcRemapStatus`; body in `featureTree.cc`).
Modelled from the spec: single-level classification, not recursing into
children — full if every fragment mapped, partial if some did, deleted if
none did, gated by whether the source sequence was in the genomic map. -/
def calcRemapStatus (t : TransMappedFeature) (srcSeqInMapping : Bool) :
    RemapStatus :=
  if !srcSeqInMapping then
    REMAP_STATUS_NO_SEQ_MAP
  else if t.mapped.isEmpty then
    REMAP_STATUS_DELETED
  else if t.unmapped.isEmpty then
    REMAP_STATUS_FULL
  else
    REMAP_STATUS_PARTIAL

/-- calculate the remap status and set it in the feature nodes
(`featureTree.hh` `TransMappedFeature::setRemapStatus`, inline): the status
is computed once, then assigned to the `fRemapStatus` field of every node of
the mapped vector and of the unmapped vector. -/
def setRemapStatus (t : TransMappedFeature) (srcSeqInMapping : Bool) :
    TransMappedFeature :=
  let remapStatus := t.calcRemapStatus srcSeqInMapping
  { t with mapped := t.mapped.map (FeatureNode.setRemapStatus remapStatus),
           unmapped := t.unmapped.map (FeatureNode.setRemapStatus remapStatus) }

end TransMappedFeature

/-- The pointer aspect of a `FeatureNode` in the arena model of `addChild`:
the parent back-reference (`fParent`, C++ nullable pointer) and the ordered
child list, both as node ids. -/
structure ArenaNode where
  fParent : Option Nat
  fChildren : List Nat

/-- An arena of `FeatureNode` pointer structures, addressed by node id.  This
models the heap on which the C++ `addChild` mutates `fChildren` of the parent
and `fParent` of the child. -/
def Arena : Type := Nat → ArenaNode

namespace Arena

/-- Overwrite the record of node `i`. -/
def update (a : Arena) (i : Nat) (r : ArenaNode) : Arena :=
  fun j => if j = i then r else a j

/-- add a child node, linking up parents (`featureTree.hh` `addChild`,
inline): `assert(node->fParent == NULL)`, then `fChildren.push_back(node)`,
then `node->fParent = this`.  The assertion failure is modelled as `none`;
the two mutations are performed in the C++ statement order. -/
def addChild (a : Arena) (this_ node : Nat) : Option Arena :=
  if (a node).fParent ≠ none then
    none
  else
    let a1 := a.update this_ { a this_ with fChildren := (a this_).fChildren ++ [node] }
    let a2 := a1.update node { a1 node with fParent := some this_ }
    some a2

end Arena

/-- `AnnotationSet` (`annotationSet.hh`): the id/name feature maps (up to two
entries kept per key, for PAR), the gene list, and the set of sequence ids
whose sequence-region lines were already written.  The C++ `std::map` is
modelled as an association list and the `StringSet` as a list of strings with
set semantics; the location map is outside the claims considered here. -/
structure AnnotationSet where
  fIdFeatureMap : List (String × List FeatureNode)
  fNameFeatureMap : List (String × List FeatureNode)
  fGenes : List FeatureNode
  fSeqRegionsWritten : List String

namespace AnnotationSet

/-- Lookup by key in a feature map with PAR handling
(`annotationSet.hh` declares `getFeatureByKey` privately; body in
`annotationSet.cc`).  Modelled from the spec: exact-key lookup; a single
entry is returned directly; with two entries (pseudoautosomal duplication,
at most two tolerated) the result must be the entry whose sequence id
differs from `seqIdForParCheck`; an absent key, more than two entries, or
failed disambiguation yield the empty result rather than a failure
signal. -/
def getFeatureByKey (key : String)
    (featureMap : List (String × List FeatureNode))
    (seqIdForParCheck : String) : Option FeatureNode :=
  match featureMap.lookup key with
  | none => none
  | some features =>
    match features with
    | [f] => some f
    | [f1, f2] =>
      if f1.fFeature.fSeqid ≠ seqIdForParCheck ∧
         f2.fFeature.fSeqid = seqIdForParCheck then
        some f1
      else if f2.fFeature.fSeqid ≠ seqIdForParCheck ∧
              f1.fFeature.fSeqid = seqIdForParCheck then
        some f2
      else
        none
    | _ => none

/-- get a gene or transcript with same base id, or empty; special handling
for PARs (`annotationSet.hh` declares `getFeatureById`; body in
`annotationSet.cc`).  Modelled from the spec: exact-key lookup in the id
map via `getFeatureByKey`. -/
def getFeatureById (s : AnnotationSet) (id : String)
    (seqIdForParCheck : String) : Option FeatureNode :=
  getFeatureByKey id s.fIdFeatureMap seqIdForParCheck

/-- get a gene or transcript with same name, or empty; special handling for
PARs (`annotationSet.hh` declares `getFeatureByName`; body in
`annotationSet.cc`).  Modelled from the spec: exact-key lookup in the name
map via `getFeatureByKey`. -/
def getFeatureByName (s : AnnotationSet) (name : String)
    (seqIdForParCheck : String) : Option FeatureNode :=
  getFeatureByKey name s.fNameFeatureMap seqIdForParCheck

/-- check if a seqregion for seqid has been written: if so return true,
otherwise record it and return false (`annotationSet.hh`
`checkRecordSeqRegionWritten`, inline).  The mutated set is returned
alongside the result. -/
def checkRecordSeqRegionWritten (s : AnnotationSet) (seqid : String) :
    Bool × AnnotationSet :=
  if seqid ∉ s.fSeqRegionsWritten then
    (false, { s with fSeqRegionsWritten := seqid :: s.fSeqRegionsWritten })
  else
    (true, s)

/-- Emit the sequence-region header for a gene's sequence id unless one was
already written (`annotationSet.hh` declares `outputMappedSeqRegionIfNeed`;
body in `annotationSet.cc`).  Modelled from the spec: gated on
`checkRecordSeqRegionWritten`.  The emitted header is represented by its
sequence id. -/
def outputMappedSeqRegionIfNeed (s : AnnotationSet) (gene : FeatureNode) :
    List String × AnnotationSet :=
  let res := s.checkRecordSeqRegionWritten gene.fFeature.fSeqid
  if res.1 then ([], res.2) else ([gene.fFeature.fSeqid], res.2)

/-- The sequence-region header stream of `write` (`annotationSet.hh`
declares `write`; body in `annotationSet.cc`).  Modelled from the spec:
for each gene in current order, emit its sequence-region header if needed
and then the gene tree; only the headers (as sequence ids) are collected
here, the interleaved feature records being irrelevant to the
deduplication property. -/
def writeGenes (s : AnnotationSet) : List FeatureNode → List String × AnnotationSet
  | [] => ([], s)
  | gene :: genes =>
    let out := s.outputMappedSeqRegionIfNeed gene
    let rest := writeGenes out.2 genes
    (out.1 ++ rest.1, rest.2)

end AnnotationSet

/-- The exon children records of a transcript node (the C++ similarity code
iterates `fChildren` keeping those with `isExon()`). -/
def exonRecords (t : FeatureNode) : List GxfFeature :=
  (t.fChildren.filter FeatureNode.isExon).map FeatureNode.fFeature

/-- Length in bases of a record's interval. -/
def featLength (f : GxfFeature) : Int :=
  f.fEnd - f.fStart

/-- Overlapping bases of two records on matching sequence and strand
(`featureTree.hh` declares `getOverlapAmount` privately; body in
`featureTree.cc`).  Modelled from the spec: exon pairs accumulate
overlapping bases only on matching strand/sequence. -/
def overlapAmount (f1 f2 : GxfFeature) : Int :=
  if f1.fSeqid = f2.fSeqid ∧ f1.fStrand = f2.fStrand then
    max 0 (min f1.fEnd f2.fEnd - max f1.fStart f2.fStart)
  else
    0

/-- Total exonic length of a transcript (`featureTree.hh` declares
`getTranscriptExonSize` privately; body in `featureTree.cc`).  Modelled from
the spec: the total exonic length. -/
def getTranscriptExonSize (t : FeatureNode) : Int :=
  ((exonRecords t).map featLength).sum

/-- Accumulated overlapping bases over all exon pairs of two transcripts
(`featureTree.hh` declares `countExonOverlap` privately; body in
`featureTree.cc`).  Modelled from the spec: for each exon pair on matching
strand/sequence, accumulate overlapping bases. -/
def totalExonOverlap (t1 t2 : FeatureNode) : Int :=
  ((exonRecords t1).map
    (fun e1 => ((exonRecords t2).map (fun e2 => overlapAmount e1 e2)).sum)).sum

/-- get exon similarity (`featureTree.hh` declares `getExonSimilarity`; body
in `featureTree.cc`).  Modelled from the spec: a symmetric overlap fraction —
accumulated overlapping bases over exon pairs on matching strand/sequence,
divided by a defined combination of the two total exonic lengths (the
Dice-style combination `(s1+s2)/2`, which makes identical exon sets score
1); zero when either transcript has no exons or the sequences differ.  The
C++ `float` is modelled exactly as a rational. -/
def getExonSimilarity (t1 t2 : FeatureNode) : ℚ :=
  if (exonRecords t1).isEmpty ∨ (exonRecords t2).isEmpty
      ∨ t1.fFeature.fSeqid ≠ t2.fFeature.fSeqid then
    0
  else
    ((2 * totalExonOverlap t1 t2 : Int) : ℚ) /
      ((getTranscriptExonSize t1 + getTranscriptExonSize t2 : Int) : ℚ)

/-- Sample gene record used in witnesses. -/
def sampleGeneFeat : GxfFeature :=
  ⟨"gene", "chr1", 1000, 5000, "+", "HAVANA", []⟩

/-- Sample transcript record used in witnesses. -/
def sampleTransFeat : GxfFeature :=
  ⟨"transcript", "chr1", 1000, 3000, "+", "HAVANA", []⟩

/-- Sample leaf transcript node with a given remap status. -/
def sampleTrans (rs : RemapStatus) : FeatureNode :=
  .mk sampleTransFeat rs TARGET_STATUS_NA 1 []

/-- Sample gene node whose transcript children carry the given statuses. -/
def sampleGene (childStatuses : List RemapStatus) : FeatureNode :=
  .mk sampleGeneFeat REMAP_STATUS_NONE TARGET_STATUS_NA 1
    (childStatuses.map sampleTrans)

/-- Result triple with only a mapped tree, used in witnesses. -/
def sampleMappedOnly : ResultFeatureTrees :=
  ⟨none, some (sampleTrans REMAP_STATUS_FULL), none, none⟩

/-- Result triple with only an unmapped tree, used in witnesses. -/
def sampleUnmappedOnly : ResultFeatureTrees :=
  ⟨none, none, some (sampleTrans REMAP_STATUS_DELETED), none⟩

/-- Result triple with only a target tree, used in witnesses. -/
def sampleTargetOnly : ResultFeatureTrees :=
  ⟨none, none, none, some (sampleTrans REMAP_STATUS_NONE)⟩

/-- Result triple with no trees at all, used in witnesses. -/
def sampleEmptyResult : ResultFeatureTrees :=
  ⟨none, none, none, none⟩

/-- Claim C1: `getRemapStatus` returns the remap status of the mapped tree
when present, otherwise of the unmapped tree, otherwise of the target tree,
and the deleted status when none of the three is present; `getTargetStatus`
follows the same mapped-then-unmapped-then-target preference and returns
the lost status when none is present. -/
theorem claim_C1_status_preference (r : ResultFeatureTrees) :
    (∀ m, r.mapped = some m →
        r.getRemapStatus = m.fRemapStatus ∧
        r.getTargetStatus = m.fTargetStatus) ∧
    (r.mapped = none → ∀ u, r.unmapped = some u →
        r.getRemapStatus = u.fRemapStatus ∧
        r.getTargetStatus = u.fTargetStatus) ∧
    (r.mapped = none → r.unmapped = none → ∀ t, r.target = some t →
        r.getRemapStatus = t.fRemapStatus ∧
        r.getTargetStatus = t.fTargetStatus) ∧
    (r.mapped = none → r.unmapped = none → r.target = none →
        r.getRemapStatus = REMAP_STATUS_DELETED ∧
        r.getTargetStatus = TARGET_STATUS_LOST) := by
  obtain ⟨s0, m0, u0, t0⟩ := r
  refine ⟨?_, ?_, ?_, ?_⟩ <;> intros <;> subst_vars <;> exact ⟨rfl, rfl⟩

/-- Witness for claim C1 at concrete result triples. -/
theorem claim_C1_status_preference_witness :
    sampleMappedOnly.getRemapStatus = REMAP_STATUS_FULL ∧
    sampleUnmappedOnly.getRemapStatus = REMAP_STATUS_DELETED ∧
    sampleTargetOnly.getRemapStatus = REMAP_STATUS_NONE ∧
    sampleEmptyResult.getRemapStatus = REMAP_STATUS_DELETED ∧
    sampleEmptyResult.getTargetStatus = TARGET_STATUS_LOST := by
  refine ⟨?_, ?_, ?_, ?_, ?_⟩
  · exact ((claim_C1_status_preference sampleMappedOnly).1 _ rfl).1
  · exact ((claim_C1_status_preference sampleUnmappedOnly).2.1 rfl _ rfl).1
  · exact ((claim_C1_status_preference sampleTargetOnly).2.2.1 rfl rfl _ rfl).1
  · exact ((claim_C1_status_preference sampleEmptyResult).2.2.2 rfl rfl rfl).1
  · exact ((claim_C1_status_preference sampleEmptyResult).2.2.2 rfl rfl rfl).2

/-- Claim C9 (implicit): `getNumMappings` returns the mapped tree's mapping
count when present, otherwise the unmapped tree's count, otherwise 0, and
never consults the target tree. -/
theorem claim_C9_getNumMappings (r : ResultFeatureTrees) :
    (∀ m, r.mapped = some m → r.getNumMappings = m.fNumMappings) ∧
    (r.mapped = none → ∀ u, r.unmapped = some u →
        r.getNumMappings = u.fNumMappings) ∧
    (r.mapped = none → r.unmapped = none → r.getNumMappings = 0) ∧
    (∀ tgt, ({ r with target := tgt } : ResultFeatureTrees).getNumMappings =
        r.getNumMappings) := by
  obtain ⟨s0, m0, u0, t0⟩ := r
  refine ⟨?_, ?_, ?_, ?_⟩
  · intro m hm; subst hm; rfl
  · intro hm u hu; subst hm; subst hu; rfl
  · intro hm hu; subst hm; subst hu; rfl
  · intro tgt; cases m0 <;> cases u0 <;> rfl

/-- Witness for claim C9 at concrete result triples. -/
theorem claim_C9_getNumMappings_witness :
    sampleMappedOnly.getNumMappings = 1 ∧
    sampleUnmappedOnly.getNumMappings = 1 ∧
    sampleEmptyResult.getNumMappings = 0 ∧
    ({ sampleEmptyResult with
        target := some (sampleTrans REMAP_STATUS_FULL) } :
      ResultFeatureTrees).getNumMappings = sampleEmptyResult.getNumMappings := by
  refine ⟨?_, ?_, ?_, ?_⟩
  · exact (claim_C9_getNumMappings sampleMappedOnly).1 _ rfl
  · exact (claim_C9_getNumMappings sampleUnmappedOnly).2.1 rfl _ rfl
  · exact (claim_C9_getNumMappings sampleEmptyResult).2.2.1 rfl rfl
  · exact (claim_C9_getNumMappings sampleEmptyResult).2.2.2
      (some (sampleTrans REMAP_STATUS_FULL))

/-- Claim C5: each of the six fan-out operations of `ResultFeatureTrees`
applies the corresponding `FeatureNode` operation to whichever of the mapped
and unmapped trees are present (and keeps an absent tree absent), and leaves
the target tree and the non-owned src reference entirely unchanged. -/
theorem claim_C5_fanout_frame (r : ResultFeatureTrees) (rs : RemapStatus)
    (ts : TargetStatus) :
    ((r.rsetRemapStatus rs).src = r.src ∧
     (r.rsetRemapStatus rs).target = r.target ∧
     (∀ m, r.mapped = some m →
        (r.rsetRemapStatus rs).mapped = some (m.rsetRemapStatus rs)) ∧
     (r.mapped = none → (r.rsetRemapStatus rs).mapped = none) ∧
     (∀ u, r.unmapped = some u →
        (r.rsetRemapStatus rs).unmapped = some (u.rsetRemapStatus rs)) ∧
     (r.unmapped = none → (r.rsetRemapStatus rs).unmapped = none)) ∧
    ((r.setTargetStatus ts).src = r.src ∧
     (r.setTargetStatus ts).target = r.target ∧
     (∀ m, r.mapped = some m →
        (r.setTargetStatus ts).mapped = some (m.setTargetStatus ts)) ∧
     (r.mapped = none → (r.setTargetStatus ts).mapped = none) ∧
     (∀ u, r.unmapped = some u →
        (r.setTargetStatus ts).unmapped = some (u.setTargetStatus ts)) ∧
     (r.unmapped = none → (r.setTargetStatus ts).unmapped = none)) ∧
    ((r.rsetTargetStatus ts).src = r.src ∧
     (r.rsetTargetStatus ts).target = r.target ∧
     (∀ m, r.mapped = some m →
        (r.rsetTargetStatus ts).mapped = some (m.rsetTargetStatus ts)) ∧
     (r.mapped = none → (r.rsetTargetStatus ts).mapped = none) ∧
     (∀ u, r.unmapped = some u →
        (r.rsetTargetStatus ts).unmapped = some (u.rsetTargetStatus ts)) ∧
     (r.unmapped = none → (r.rsetTargetStatus ts).unmapped = none)) ∧
    (r.rsetTargetStatusAttr.src = r.src ∧
     r.rsetTargetStatusAttr.target = r.target ∧
     (∀ m, r.mapped = some m →
        r.rsetTargetStatusAttr.mapped = some m.rsetTargetStatusAttr) ∧
     (r.mapped = none → r.rsetTargetStatusAttr.mapped = none) ∧
     (∀ u, r.unmapped = some u →
        r.rsetTargetStatusAttr.unmapped = some u.rsetTargetStatusAttr) ∧
     (r.unmapped = none → r.rsetTargetStatusAttr.unmapped = none)) ∧
    (r.setNumMappingsAttr.src = r.src ∧
     r.setNumMappingsAttr.target = r.target ∧
     (∀ m, r.mapped = some m →
        r.setNumMappingsAttr.mapped = some m.setNumMappingsAttr) ∧
     (r.mapped = none → r.setNumMappingsAttr.mapped = none) ∧
     (∀ u, r.unmapped = some u →
        r.setNumMappingsAttr.unmapped = some u.setNumMappingsAttr) ∧
     (r.unmapped = none → r.setNumMappingsAttr.unmapped = none)) ∧
    (r.rsetRemapStatusAttr.src = r.src ∧
     r.rsetRemapStatusAttr.target = r.target ∧
     (∀ m, r.mapped = some m →
        r.rsetRemapStatusAttr.mapped = some m.rsetRemapStatusAttr) ∧
     (r.mapped = none → r.rsetRemapStatusAttr.mapped = none) ∧
     (∀ u, r.unmapped = some u →
        r.rsetRemapStatusAttr.unmapped = some u.rsetRemapStatusAttr) ∧
     (r.unmapped = none → r.rsetRemapStatusAttr.unmapped = none)) := by
  obtain ⟨s0, m0, u0, t0⟩ := r
  and_intros <;> intros <;> subst_vars <;> rfl

/-- Witness for claim C5 at a concrete result triple with both a mapped and
an unmapped tree present. -/
theorem claim_C5_fanout_frame_witness :
    (({ sampleMappedOnly with
          unmapped := some (sampleTrans REMAP_STATUS_DELETED),
          target := some (sampleTrans REMAP_STATUS_NONE) } :
        ResultFeatureTrees).rsetRemapStatus REMAP_STATUS_PARTIAL).target =
      some (sampleTrans REMAP_STATUS_NONE) ∧
    (({ sampleMappedOnly with
          unmapped := some (sampleTrans REMAP_STATUS_DELETED),
          target := some (sampleTrans REMAP_STATUS_NONE) } :
        ResultFeatureTrees).rsetRemapStatus REMAP_STATUS_PARTIAL).mapped =
      some ((sampleTrans REMAP_STATUS_FULL).rsetRemapStatus
        REMAP_STATUS_PARTIAL) ∧
    (({ sampleMappedOnly with
          unmapped := some (sampleTrans REMAP_STATUS_DELETED),
          target := some (sampleTrans REMAP_STATUS_NONE) } :
        ResultFeatureTrees).setTargetStatus TARGET_STATUS_NEW).unmapped =
      some ((sampleTrans REMAP_STATUS_DELETED).setTargetStatus
        TARGET_STATUS_NEW) ∧
    (sampleEmptyResult.rsetRemapStatusAttr.mapped = none) := by
  refine ⟨?_, ?_, ?_, ?_⟩
  · exact (claim_C5_fanout_frame _ REMAP_STATUS_PARTIAL TARGET_STATUS_NEW).1.2.1
  · exact (claim_C5_fanout_frame _ REMAP_STATUS_PARTIAL
      TARGET_STATUS_NEW).1.2.2.1 _ rfl
  · exact (claim_C5_fanout_frame _ REMAP_STATUS_PARTIAL
      TARGET_STATUS_NEW).2.1.2.2.2.2.1 _ rfl
  · exact (claim_C5_fanout_frame sampleEmptyResult REMAP_STATUS_PARTIAL
      TARGET_STATUS_NEW).2.2.2.2.2.2.2.2.1 rfl

/-- Claim C3: under the no-parent precondition, `addChild` succeeds, appends
the node as the last element of the parent's child list (preserving the
previously attached children in insertion order), sets the node's parent
back-reference, and touches no other node; on a node that already has a
parent the assertion `node->fParent == NULL` fails, so the operation fails
and the failure branch is unreachable under the precondition. -/
theorem claim_C3_addChild (a : Arena) (p n : Nat) :
    ((a n).fParent = none →
      ∃ a2, a.addChild p n = some a2 ∧
        (a2 p).fChildren = (a p).fChildren ++ [n] ∧
        (a2 n).fParent = some p ∧
        (∀ q, q ≠ p → q ≠ n → a2 q = a q)) ∧
    ((a n).fParent ≠ none → a.addChild p n = none) := by
  constructor
  · intro h
    have hne : ¬ ((a n).fParent ≠ none) := by simp [h]
    unfold Arena.addChild
    rw [if_neg hne]
    refine ⟨_, rfl, ?_, ?_, ?_⟩
    · by_cases hpn : p = n
      · subst hpn; simp [Arena.update]
      · simp [Arena.update, hpn]
    · simp [Arena.update]
    · intro q hqp hqn
      simp [Arena.update, hqp, hqn]
  · intro h
    unfold Arena.addChild
    rw [if_pos h]

/-- A fresh arena (every node parentless and childless), used in the C3
witness. -/
def sampleArena : Arena := fun _ => ⟨none, []⟩

/-- An arena in which node 1 already has a parent, used in the C3 witness. -/
def sampleArena2 : Arena := fun i => if i = 1 then ⟨some 0, []⟩ else ⟨none, [1]⟩

/-- Witness for claim C3: attaching node 1 under node 0 in a fresh arena
succeeds with the stated effects; attaching an already-parented node fails. -/
theorem claim_C3_addChild_witness :
    (∃ a2, sampleArena.addChild 0 1 = some a2 ∧
      (a2 0).fChildren = [1] ∧
      (a2 1).fParent = some 0 ∧
      (∀ q, q ≠ 0 → q ≠ 1 → a2 q = sampleArena q)) ∧
    sampleArena2.addChild 0 1 = none := by
  constructor
  · exact (claim_C3_addChild sampleArena 0 1).1 rfl
  · exact (claim_C3_addChild sampleArena2 0 1).2 (by simp [sampleArena2])

/-- Concrete transmapped feature with one mapped and one unmapped fragment,
used in the C10 witness. -/
def sampleTransMapped : TransMappedFeature :=
  ⟨none, [sampleTrans REMAP_STATUS_NONE], [sampleTrans REMAP_STATUS_NONE]⟩

/-- Claim C10 (implicit): after `TransMappedFeature.setRemapStatus`, every
node of the mapped collection and every node of the unmapped collection
carries the same remap status, namely the single value
`calcRemapStatus(srcSeqInMapping)` computed once before the assignment. -/
theorem claim_C10_uniform_status (t : TransMappedFeature)
    (srcSeqInMapping : Bool) :
    (∀ n ∈ (t.setRemapStatus srcSeqInMapping).mapped,
        n.fRemapStatus = t.calcRemapStatus srcSeqInMapping) ∧
    (∀ n ∈ (t.setRemapStatus srcSeqInMapping).unmapped,
        n.fRemapStatus = t.calcRemapStatus srcSeqInMapping) := by
  constructor <;>
  · intro n hn
    simp only [TransMappedFeature.setRemapStatus, List.mem_map] at hn
    obtain ⟨m, _, rfl⟩ := hn
    cases m
    rfl

/-- Witness for claim C10: in a concrete split feature, a mapped fragment
and an unmapped fragment both end up with the computed status. -/
theorem claim_C10_uniform_status_witness :
    (∃ n ∈ (sampleTransMapped.setRemapStatus true).mapped,
        n.fRemapStatus = sampleTransMapped.calcRemapStatus true) ∧
    (∃ n ∈ (sampleTransMapped.setRemapStatus true).unmapped,
        n.fRemapStatus = sampleTransMapped.calcRemapStatus true) := by
  constructor
  · refine ⟨(sampleTrans REMAP_STATUS_NONE).setRemapStatus
        (sampleTransMapped.calcRemapStatus true), ?_, ?_⟩
    · simp [TransMappedFeature.setRemapStatus, sampleTransMapped]
    · exact (claim_C10_uniform_status sampleTransMapped true).1 _
        (by simp [TransMappedFeature.setRemapStatus, sampleTransMapped])
  · refine ⟨(sampleTrans REMAP_STATUS_NONE).setRemapStatus
        (sampleTransMapped.calcRemapStatus true), ?_, ?_⟩
    · simp [TransMappedFeature.setRemapStatus, sampleTransMapped]
    · exact (claim_C10_uniform_status sampleTransMapped true).2 _
        (by simp [TransMappedFeature.setRemapStatus, sampleTransMapped])

/-- Claim C2: `calcBoundingFeatureRemapStatus` aggregates a bounding
feature's remap status bottom-up from its children — with the source
sequence in the mapping, all children fully mapped gives fully-mapped, some
but not all children mapped gives partially-mapped, no children mapped gives
deleted; with the source sequence not in the mapping and no children mapped
the result is the undetermined/excluded variant, not deleted — and
`setBoundingFeatureRemapStatus` applies the computed status to whichever of
the mapped and unmapped trees are present. -/
theorem claim_C2_bounding_status (r : ResultFeatureTrees) (b : Bool) :
    (r.childRemapStatuses ≠ [] →
      (∀ s ∈ r.childRemapStatuses, s = REMAP_STATUS_FULL) →
      r.calcBoundingFeatureRemapStatus true = REMAP_STATUS_FULL) ∧
    ((∃ s ∈ r.childRemapStatuses, ResultFeatureTrees.statusMapped s) →
      (∃ s ∈ r.childRemapStatuses, ¬ ResultFeatureTrees.statusMapped s) →
      r.calcBoundingFeatureRemapStatus true = REMAP_STATUS_PARTIAL) ∧
    ((∀ s ∈ r.childRemapStatuses, ¬ ResultFeatureTrees.statusMapped s) →
      r.calcBoundingFeatureRemapStatus true = REMAP_STATUS_DELETED) ∧
    ((∀ s ∈ r.childRemapStatuses, ¬ ResultFeatureTrees.statusMapped s) →
      r.calcBoundingFeatureRemapStatus false = REMAP_STATUS_NO_SEQ_MAP ∧
      REMAP_STATUS_NO_SEQ_MAP ≠ REMAP_STATUS_DELETED) ∧
    (∀ m, r.mapped = some m → (r.setBoundingFeatureRemapStatus b).mapped =
        some (m.setRemapStatus (r.calcBoundingFeatureRemapStatus b))) ∧
    (r.mapped = none → (r.setBoundingFeatureRemapStatus b).mapped = none) ∧
    (∀ u, r.unmapped = some u → (r.setBoundingFeatureRemapStatus b).unmapped =
        some (u.setRemapStatus (r.calcBoundingFeatureRemapStatus b))) ∧
    (r.unmapped = none → (r.setBoundingFeatureRemapStatus b).unmapped = none) := by
  refine ⟨?_, ?_, ?_, ?_, ?_, ?_, ?_, ?_⟩
  · intro hne hall
    have hany : r.childRemapStatuses.any ResultFeatureTrees.statusMapped = true := by
      obtain ⟨s, hs⟩ := List.exists_mem_of_ne_nil _ hne
      refine List.any_eq_true.mpr ⟨s, hs, ?_⟩
      rw [hall s hs]
      rfl
    have hfull : r.childRemapStatuses.all
        (fun s => decide (s = REMAP_STATUS_FULL)) = true := by
      refine List.all_eq_true.mpr ?_
      intro s hs
      exact decide_eq_true (hall s hs)
    simp [ResultFeatureTrees.calcBoundingFeatureRemapStatus, hany, hfull]
  · rintro ⟨s1, hs1, hm1⟩ ⟨s2, hs2, hm2⟩
    have hany : r.childRemapStatuses.any ResultFeatureTrees.statusMapped = true :=
      List.any_eq_true.mpr ⟨s1, hs1, hm1⟩
    have hnfull : r.childRemapStatuses.all
        (fun s => decide (s = REMAP_STATUS_FULL)) = false := by
      refine eq_false_of_ne_true ?_
      rw [List.all_eq_true]
      intro hfa
      have h2 := of_decide_eq_true (hfa s2 hs2)
      rw [h2] at hm2
      exact hm2 rfl
    simp [ResultFeatureTrees.calcBoundingFeatureRemapStatus, hany, hnfull]
  · intro hnone
    have hany : r.childRemapStatuses.any ResultFeatureTrees.statusMapped = false := by
      refine eq_false_of_ne_true ?_
      rw [List.any_eq_true]
      rintro ⟨s, hs, hm⟩
      exact hnone s hs hm
    simp [ResultFeatureTrees.calcBoundingFeatureRemapStatus, hany]
  · intro _
    exact ⟨by simp [ResultFeatureTrees.calcBoundingFeatureRemapStatus], by decide⟩
  · obtain ⟨s0, m0, u0, t0⟩ := r
    intro m hm
    subst hm
    rfl
  · obtain ⟨s0, m0, u0, t0⟩ := r
    intro hm
    subst hm
    rfl
  · obtain ⟨s0, m0, u0, t0⟩ := r
    intro u hu
    subst hu
    rfl
  · obtain ⟨s0, m0, u0, t0⟩ := r
    intro hu
    subst hu
    rfl

/-- Result triple whose mapped gene has two fully-mapped transcripts. -/
def sampleBoundingFF : ResultFeatureTrees :=
  ⟨none, some (sampleGene [REMAP_STATUS_FULL, REMAP_STATUS_FULL]), none, none⟩

/-- Result triple whose mapped gene has one fully-mapped and one deleted
transcript. -/
def sampleBoundingFD : ResultFeatureTrees :=
  ⟨none, some (sampleGene [REMAP_STATUS_FULL, REMAP_STATUS_DELETED]), none, none⟩

/-- Result triple whose mapped gene has two deleted transcripts. -/
def sampleBoundingDD : ResultFeatureTrees :=
  ⟨none, some (sampleGene [REMAP_STATUS_DELETED, REMAP_STATUS_DELETED]), none, none⟩

/-- Witness for claim C2 on the spec's test vectors: {full, full} gives
full, {full, deleted} gives partial, {deleted, deleted} gives deleted, and
with the source sequence out of the mapping the no-seq-map variant; the
computed status is applied to the present mapped tree. -/
theorem claim_C2_bounding_status_witness :
    sampleBoundingFF.calcBoundingFeatureRemapStatus true = REMAP_STATUS_FULL ∧
    sampleBoundingFD.calcBoundingFeatureRemapStatus true = REMAP_STATUS_PARTIAL ∧
    sampleBoundingDD.calcBoundingFeatureRemapStatus true = REMAP_STATUS_DELETED ∧
    sampleBoundingDD.calcBoundingFeatureRemapStatus false = REMAP_STATUS_NO_SEQ_MAP ∧
    (sampleBoundingFF.setBoundingFeatureRemapStatus true).mapped =
      some ((sampleGene [REMAP_STATUS_FULL, REMAP_STATUS_FULL]).setRemapStatus
        (sampleBoundingFF.calcBoundingFeatureRemapStatus true)) := by
  refine ⟨?_, ?_, ?_, ?_, ?_⟩
  · exact (claim_C2_bounding_status sampleBoundingFF true).1
      (by decide) (by decide)
  · exact (claim_C2_bounding_status sampleBoundingFD true).2.1
      (by decide) (by decide)
  · exact (claim_C2_bounding_status sampleBoundingDD true).2.2.1 (by decide)
  · exact ((claim_C2_bounding_status sampleBoundingDD true).2.2.2.1
      (by decide)).1
  · exact (claim_C2_bounding_status sampleBoundingFF true).2.2.2.2.1 _ rfl

/-- Claim C4: `getFeatureById` / `getFeatureByName` perform exact-key lookup
in the id/name index; with two entries for the key (pseudoautosomal
duplication, at most two tolerated) the entry whose sequence id differs from
`seqIdForParCheck` is returned; an absent key or failed disambiguation gives
the empty result, never a failure signal. -/
theorem claim_C4_par_lookup (s : AnnotationSet) (key chk : String) :
    (s.getFeatureById key chk =
        AnnotationSet.getFeatureByKey key s.fIdFeatureMap chk) ∧
    (s.getFeatureByName key chk =
        AnnotationSet.getFeatureByKey key s.fNameFeatureMap chk) ∧
    (∀ fm, fm.lookup key = none →
        AnnotationSet.getFeatureByKey key fm chk = none) ∧
    (∀ (fm : List (String × List FeatureNode)) f, fm.lookup key = some [f] →
        AnnotationSet.getFeatureByKey key fm chk = some f) ∧
    (∀ (fm : List (String × List FeatureNode)) f1 f2,
        fm.lookup key = some [f1, f2] →
        f1.fFeature.fSeqid ≠ chk → f2.fFeature.fSeqid = chk →
        AnnotationSet.getFeatureByKey key fm chk = some f1) ∧
    (∀ (fm : List (String × List FeatureNode)) f1 f2,
        fm.lookup key = some [f1, f2] →
        f1.fFeature.fSeqid = chk → f2.fFeature.fSeqid ≠ chk →
        AnnotationSet.getFeatureByKey key fm chk = some f2) ∧
    (∀ (fm : List (String × List FeatureNode)) f1 f2,
        fm.lookup key = some [f1, f2] →
        f1.fFeature.fSeqid = chk → f2.fFeature.fSeqid = chk →
        AnnotationSet.getFeatureByKey key fm chk = none) ∧
    (∀ (fm : List (String × List FeatureNode)) f1 f2,
        fm.lookup key = some [f1, f2] →
        f1.fFeature.fSeqid ≠ chk → f2.fFeature.fSeqid ≠ chk →
        AnnotationSet.getFeatureByKey key fm chk = none) ∧
    (∀ (fm : List (String × List FeatureNode)) entries,
        fm.lookup key = some entries → 2 < entries.length →
        AnnotationSet.getFeatureByKey key fm chk = none) := by
  refine ⟨rfl, rfl, ?_, ?_, ?_, ?_, ?_, ?_, ?_⟩
  · intro fm h
    simp [AnnotationSet.getFeatureByKey, h]
  · intro fm f h
    simp [AnnotationSet.getFeatureByKey, h]
  · intro fm f1 f2 h h1 h2
    simp [AnnotationSet.getFeatureByKey, h, h1, h2]
  · intro fm f1 f2 h h1 h2
    simp [AnnotationSet.getFeatureByKey, h, h1, h2]
  · intro fm f1 f2 h h1 h2
    simp [AnnotationSet.getFeatureByKey, h, h1, h2]
  · intro fm f1 f2 h h1 h2
    simp [AnnotationSet.getFeatureByKey, h, h1, h2]
  · intro fm entries h hlen
    rcases entries with _ | ⟨a, _ | ⟨b, _ | ⟨c, rest⟩⟩⟩
    · simp at hlen
    · simp at hlen
    · simp at hlen
    · simp [AnnotationSet.getFeatureByKey, h]

/-- A PAR gene copy on a given sequence, used in the C4 witness. -/
def parGene (seqid : String) : FeatureNode :=
  .mk ⟨"gene", seqid, 1000, 5000, "+", "HAVANA", []⟩
    REMAP_STATUS_NONE TARGET_STATUS_NA 0 []

/-- Annotation set indexing the two PAR copies of gene G1 (on chrX and chrY)
plus a singleton id, used in the C4 witness. -/
def sampleParSet : AnnotationSet :=
  ⟨[("G1", [parGene "chrX", parGene "chrY"]), ("G2", [parGene "chr7"])],
   [("N1", [parGene "chrX", parGene "chrY"])],
   [parGene "chrX", parGene "chrY", parGene "chr7"],
   []⟩

/-- Witness for claim C4: looking up the PAR gene G1 with chrX as the PAR
check returns the chrY copy and vice versa; a missing key returns none; a
singleton key returns its entry; the name index behaves the same way. -/
theorem claim_C4_par_lookup_witness :
    sampleParSet.getFeatureById "G1" "chrX" = some (parGene "chrY") ∧
    sampleParSet.getFeatureById "G1" "chrY" = some (parGene "chrX") ∧
    sampleParSet.getFeatureById "G2" "chrX" = some (parGene "chr7") ∧
    sampleParSet.getFeatureById "G3" "chrX" = none ∧
    sampleParSet.getFeatureById "G1" "chr7" = none ∧
    sampleParSet.getFeatureByName "N1" "chrX" = some (parGene "chrY") := by
  refine ⟨?_, ?_, ?_, ?_, ?_, ?_⟩
  · rw [(claim_C4_par_lookup sampleParSet "G1" "chrX").1]
    exact (claim_C4_par_lookup sampleParSet "G1" "chrX").2.2.2.2.2.1
      sampleParSet.fIdFeatureMap (parGene "chrX") (parGene "chrY")
      rfl (by decide) (by decide)
  · rw [(claim_C4_par_lookup sampleParSet "G1" "chrY").1]
    exact (claim_C4_par_lookup sampleParSet "G1" "chrY").2.2.2.2.1
      sampleParSet.fIdFeatureMap (parGene "chrX") (parGene "chrY")
      rfl (by decide) (by decide)
  · rw [(claim_C4_par_lookup sampleParSet "G2" "chrX").1]
    exact (claim_C4_par_lookup sampleParSet "G2" "chrX").2.2.2.1
      sampleParSet.fIdFeatureMap (parGene "chr7") rfl
  · rw [(claim_C4_par_lookup sampleParSet "G3" "chrX").1]
    exact (claim_C4_par_lookup sampleParSet "G3" "chrX").2.2.1
      sampleParSet.fIdFeatureMap rfl
  · rw [(claim_C4_par_lookup sampleParSet "G1" "chr7").1]
    exact (claim_C4_par_lookup sampleParSet "G1" "chr7").2.2.2.2.2.2.2.1
      sampleParSet.fIdFeatureMap (parGene "chrX") (parGene "chrY")
      rfl (by decide) (by decide)
  · rw [(claim_C4_par_lookup sampleParSet "N1" "chrX").2.1]
    exact (claim_C4_par_lookup sampleParSet "N1" "chrX").2.2.2.2.2.1
      sampleParSet.fNameFeatureMap (parGene "chrX") (parGene "chrY")
      rfl (by decide) (by decide)

/-- Helper for claim C6: the exact sequence-region header count emitted by
`writeGenes` for a given sequence id, together with the final written-set
membership: a header for `sq` appears 0 times when `sq` was already
recorded, once when some gene lies on `sq`, and never otherwise; afterwards
`sq` is recorded iff it was before or some gene lies on it. -/
theorem writeGenes_header_spec (sq : String) (genes : List FeatureNode) :
    ∀ s : AnnotationSet,
      ((s.writeGenes genes).1.count sq =
        if sq ∈ s.fSeqRegionsWritten then 0
        else if genes.any (fun g => g.fFeature.fSeqid = sq) then 1 else 0) ∧
      (sq ∈ (s.writeGenes genes).2.fSeqRegionsWritten ↔
        (sq ∈ s.fSeqRegionsWritten ∨
          ∃ g ∈ genes, g.fFeature.fSeqid = sq)) := by
  induction genes with
  | nil =>
    intro s
    refine ⟨?_, ?_⟩
    · simp only [AnnotationSet.writeGenes, List.any_nil, List.count_nil,
        Bool.false_eq_true, if_false]
      split <;> rfl
    · simp [AnnotationSet.writeGenes]
  | cons g gs ih =>
    intro s
    by_cases hg : g.fFeature.fSeqid ∈ s.fSeqRegionsWritten
    · have hout : s.outputMappedSeqRegionIfNeed g = ([], s) := by
        simp [AnnotationSet.outputMappedSeqRegionIfNeed,
          AnnotationSet.checkRecordSeqRegionWritten, hg]
      have h1 : (s.writeGenes (g :: gs)).1 = (s.writeGenes gs).1 := by
        simp [AnnotationSet.writeGenes, hout]
      have h2 : (s.writeGenes (g :: gs)).2 = (s.writeGenes gs).2 := by
        simp [AnnotationSet.writeGenes, hout]
      refine ⟨?_, ?_⟩
      · rw [h1, (ih s).1]
        by_cases hsq : sq ∈ s.fSeqRegionsWritten
        · simp [hsq]
        · have hne : ¬ (g.fFeature.fSeqid = sq) := fun e => hsq (e ▸ hg)
          simp [hsq, List.any_cons, hne]
      · rw [h2, (ih s).2]
        constructor
        · rintro (h | ⟨x, hx, he⟩)
          · exact Or.inl h
          · exact Or.inr ⟨x, List.mem_cons_of_mem _ hx, he⟩
        · rintro (h | ⟨x, hx, he⟩)
          · exact Or.inl h
          · rcases List.mem_cons.mp hx with rfl | hx2
            · exact Or.inl (he ▸ hg)
            · exact Or.inr ⟨x, hx2, he⟩
    · have hout : s.outputMappedSeqRegionIfNeed g =
          ([g.fFeature.fSeqid],
           { s with fSeqRegionsWritten :=
               g.fFeature.fSeqid :: s.fSeqRegionsWritten }) := by
        simp [AnnotationSet.outputMappedSeqRegionIfNeed,
          AnnotationSet.checkRecordSeqRegionWritten, hg]
      have h1 : (s.writeGenes (g :: gs)).1 =
          g.fFeature.fSeqid ::
            (AnnotationSet.writeGenes
              { s with fSeqRegionsWritten :=
                  g.fFeature.fSeqid :: s.fSeqRegionsWritten } gs).1 := by
        simp [AnnotationSet.writeGenes, hout]
      have h2 : (s.writeGenes (g :: gs)).2 =
          (AnnotationSet.writeGenes
            { s with fSeqRegionsWritten :=
                g.fFeature.fSeqid :: s.fSeqRegionsWritten } gs).2 := by
        simp [AnnotationSet.writeGenes, hout]
      refine ⟨?_, ?_⟩
      · rw [h1, List.count_cons, (ih _).1]
        by_cases hgs : g.fFeature.fSeqid = sq
        · subst hgs
          simp [hg, List.any_cons, List.mem_cons]
        · have hgs2 : ¬ (sq = g.fFeature.fSeqid) := fun e => hgs e.symm
          have hmem : (sq ∈ g.fFeature.fSeqid :: s.fSeqRegionsWritten) ↔
              sq ∈ s.fSeqRegionsWritten := by
            simp [List.mem_cons, hgs2]
          by_cases hsq : sq ∈ s.fSeqRegionsWritten
          · simp [hsq, hmem.mpr hsq, hgs]
          · have : ¬ (sq ∈ g.fFeature.fSeqid :: s.fSeqRegionsWritten) := by
              rw [hmem]; exact hsq
            simp [hsq, this, List.any_cons, hgs]
      · rw [h2, (ih _).2]
        constructor
        · rintro (h | ⟨x, hx, he⟩)
          · rcases List.mem_cons.mp h with rfl | h2
            · exact Or.inr ⟨g, List.mem_cons_self _ _, rfl⟩
            · exact Or.inl h2
          · exact Or.inr ⟨x, List.mem_cons_of_mem _ hx, he⟩
        · rintro (h | ⟨x, hx, he⟩)
          · exact Or.inl (List.mem_cons_of_mem _ h)
          · rcases List.mem_cons.mp hx with rfl | hx2
            · exact Or.inl (he ▸ List.mem_cons_self _ _)
            · exact Or.inr ⟨x, hx2, he⟩

/-- Claim C6: `checkRecordSeqRegionWritten` returns false and records the
sequence id on the first call, true on every subsequent call; consequently a
write over any sequence of genes emits at most one sequence-region header
per sequence id, and writing two genes on the same sequence id emits exactly
one header for that id. -/
theorem claim_C6_seq_region_dedup :
    (∀ (s : AnnotationSet) (sq : String), sq ∉ s.fSeqRegionsWritten →
        (s.checkRecordSeqRegionWritten sq).1 = false ∧
        sq ∈ (s.checkRecordSeqRegionWritten sq).2.fSeqRegionsWritten) ∧
    (∀ (s : AnnotationSet) (sq : String), sq ∈ s.fSeqRegionsWritten →
        s.checkRecordSeqRegionWritten sq = (true, s)) ∧
    (∀ (s : AnnotationSet) (sq : String),
        (((s.checkRecordSeqRegionWritten sq).2).checkRecordSeqRegionWritten
          sq).1 = true) ∧
    (∀ (s : AnnotationSet) (genes : List FeatureNode) (sq : String),
        (s.writeGenes genes).1.count sq ≤ 1) ∧
    (∀ (s : AnnotationSet) (g1 g2 : FeatureNode) (sq : String),
        sq ∉ s.fSeqRegionsWritten →
        g1.fFeature.fSeqid = sq → g2.fFeature.fSeqid = sq →
        (s.writeGenes [g1, g2]).1.count sq = 1) := by
  refine ⟨?_, ?_, ?_, ?_, ?_⟩
  · intro s sq h
    constructor
    · simp [AnnotationSet.checkRecordSeqRegionWritten, h]
    · simp [AnnotationSet.checkRecordSeqRegionWritten, h]
  · intro s sq h
    simp [AnnotationSet.checkRecordSeqRegionWritten, h]
  · intro s sq
    by_cases h : sq ∈ s.fSeqRegionsWritten
    · simp [AnnotationSet.checkRecordSeqRegionWritten, h]
    · simp [AnnotationSet.checkRecordSeqRegionWritten, h]
  · intro s genes sq
    rw [(writeGenes_header_spec sq genes s).1]
    split
    · exact Nat.zero_le 1
    · split
      · exact Nat.le_refl 1
      · exact Nat.zero_le 1
  · intro s g1 g2 sq h hg1 hg2
    rw [(writeGenes_header_spec sq [g1, g2] s).1]
    simp [h, List.any_cons, hg1]

/-- Empty annotation set used in the C6 witness. -/
def sampleEmptySet : AnnotationSet := ⟨[], [], [], []⟩

/-- Witness for claim C6: with a fresh set, the first check on chr1 returns
false and records it, the next returns true, and writing two genes on chr1
emits exactly one chr1 sequence-region header (hence at most one). -/
theorem claim_C6_seq_region_dedup_witness :
    (sampleEmptySet.checkRecordSeqRegionWritten "chr1").1 = false ∧
    (((sampleEmptySet.checkRecordSeqRegionWritten "chr1").2).checkRecordSeqRegionWritten
        "chr1").1 = true ∧
    (sampleEmptySet.writeGenes [sampleGene [], sampleGene []]).1.count "chr1" = 1 ∧
    (sampleEmptySet.writeGenes [sampleGene [], sampleGene []]).1.count "chr1" ≤ 1 := by
  refine ⟨?_, ?_, ?_, ?_⟩
  · exact (claim_C6_seq_region_dedup.1 sampleEmptySet "chr1" (by simp [sampleEmptySet])).1
  · exact claim_C6_seq_region_dedup.2.2.1 sampleEmptySet "chr1"
  · exact claim_C6_seq_region_dedup.2.2.2.2 sampleEmptySet (sampleGene [])
      (sampleGene []) "chr1" (by simp [sampleEmptySet]) rfl rfl
  · exact claim_C6_seq_region_dedup.2.2.2.1 sampleEmptySet
      [sampleGene [], sampleGene []] "chr1"

mutual

/-- Helper for claim C8 (node case): `getMatching` extends the accumulated
hits with the pre-order listing of the subtree filtered by the predicate. -/
theorem getMatching_eq_filtered (filter : GxfFeature → Bool) :
    ∀ (t : FeatureNode) (hits : List GxfFeature),
      t.getMatching hits filter = hits ++ (t.preorder).filter filter
  | .mk f rs ts nm cs, hits => by
    simp only [FeatureNode.getMatching, FeatureNode.preorder]
    rw [getMatchingL_eq_filtered filter cs _]
    cases hf : filter f <;> simp [List.filter_cons, hf]

/-- Helper for claim C8 (children-loop case). -/
theorem getMatchingL_eq_filtered (filter : GxfFeature → Bool) :
    ∀ (cs : List FeatureNode) (hits : List GxfFeature),
      getMatchingL hits filter cs = hits ++ (preorderL cs).filter filter
  | [], hits => by
    simp [getMatchingL, preorderL]
  | c :: cs, hits => by
    simp only [getMatchingL, preorderL]
    rw [getMatching_eq_filtered filter c hits,
      getMatchingL_eq_filtered filter cs _]
    simp [List.filter_append]

end

/-- Claim C8: `getMatching` traverses the subtree in pre-order — the node's
own record is tested and emitted before any of its children's, children in
insertion order — and appends to the accumulated hits, as a flat eagerly
materialized list, exactly the records of the subtree satisfying the
predicate (the pre-order listing filtered by the predicate). -/
theorem claim_C8_getMatching (t : FeatureNode) (filter : GxfFeature → Bool)
    (hits : List GxfFeature) :
    t.getMatching hits filter = hits ++ (t.preorder).filter filter :=
  getMatching_eq_filtered filter t hits

/-- Exchanging a double sum of integers over two lists. -/
theorem sum_map_swap_int {α β : Type} (f : α → β → Int) :
    ∀ (l1 : List α) (l2 : List β),
      (l1.map (fun a => (l2.map (f a)).sum)).sum =
        (l2.map (fun b => (l1.map (fun a => f a b)).sum)).sum
  | [], l2 => by
    rw [List.map_nil, List.sum_nil]
    exact (List.sum_eq_zero (by simp)).symm
  | a :: l1, l2 => by
    simp only [List.map_cons, List.sum_cons]
    rw [List.sum_map_add, sum_map_swap_int f l1 l2]

/-- `overlapAmount` is symmetric in its two records. -/
theorem overlapAmount_comm (f1 f2 : GxfFeature) :
    overlapAmount f1 f2 = overlapAmount f2 f1 := by
  unfold overlapAmount
  by_cases h : f1.fSeqid = f2.fSeqid ∧ f1.fStrand = f2.fStrand
  · rw [if_pos h, if_pos ⟨h.1.symm, h.2.symm⟩,
      min_comm f1.fEnd f2.fEnd, max_comm f1.fStart f2.fStart]
  · rw [if_neg h, if_neg (fun h2 => h ⟨h2.1.symm, h2.2.symm⟩)]

/-- The accumulated pairwise overlap is symmetric in the two transcripts. -/
theorem totalExonOverlap_comm (t1 t2 : FeatureNode) :
    totalExonOverlap t1 t2 = totalExonOverlap t2 t1 := by
  unfold totalExonOverlap
  rw [sum_map_swap_int (fun e1 e2 => overlapAmount e1 e2)
    (exonRecords t1) (exonRecords t2)]
  simp only [overlapAmount_comm]

/-- A record overlaps itself by exactly its own length. -/
theorem overlapAmount_self (e : GxfFeature) (h : 0 ≤ featLength e) :
    overlapAmount e e = featLength e := by
  unfold overlapAmount
  rw [if_pos ⟨rfl, rfl⟩, min_self, max_self]
  exact max_eq_right h

/-- Over a list of nonnegative-length, mutually non-overlapping records, the
double overlap sum collapses to the total length. -/
theorem sum_overlap_diag :
    ∀ L : List GxfFeature,
      (∀ e ∈ L, 0 ≤ featLength e) →
      L.Pairwise (fun a b => overlapAmount a b = 0 ∧ overlapAmount b a = 0) →
      (L.map (fun e1 => (L.map (fun e2 => overlapAmount e1 e2)).sum)).sum =
        (L.map featLength).sum
  | [], _, _ => by simp
  | a :: L, hlen, hpw => by
    obtain ⟨ha, hpw2⟩ := List.pairwise_cons.mp hpw
    simp only [List.map_cons, List.sum_cons]
    have hzero1 : (L.map (fun e2 => overlapAmount a e2)).sum = 0 := by
      refine List.sum_eq_zero ?_
      intro y hy
      obtain ⟨b, hb, rfl⟩ := List.mem_map.mp hy
      exact (ha b hb).1
    have hzero2 : (L.map (fun e1 => overlapAmount e1 a)).sum = 0 := by
      refine List.sum_eq_zero ?_
      intro y hy
      obtain ⟨b, hb, rfl⟩ := List.mem_map.mp hy
      exact (ha b hb).2
    rw [List.sum_map_add, hzero1, hzero2,
      overlapAmount_self a (hlen a (List.mem_cons_self a L)),
      sum_overlap_diag L (fun e he => hlen e (List.mem_cons_of_mem a he)) hpw2]
    ring

/-- Claim C7: exon similarity is symmetric; for two transcripts on the same
sequence with identical, non-degenerate (positive-length, mutually
non-overlapping) exon sets it is 1; it is 0 when either transcript has no
exons or the transcripts' sequences differ. -/
theorem claim_C7_exon_similarity :
    (∀ t1 t2 : FeatureNode,
        getExonSimilarity t1 t2 = getExonSimilarity t2 t1) ∧
    (∀ t1 t2 : FeatureNode,
        exonRecords t1 = exonRecords t2 →
        exonRecords t1 ≠ [] →
        t1.fFeature.fSeqid = t2.fFeature.fSeqid →
        (∀ e ∈ exonRecords t1, 0 < featLength e) →
        (exonRecords t1).Pairwise
          (fun a b => overlapAmount a b = 0 ∧ overlapAmount b a = 0) →
        getExonSimilarity t1 t2 = 1) ∧
    (∀ t1 t2 : FeatureNode, exonRecords t1 = [] ∨ exonRecords t2 = [] →
        getExonSimilarity t1 t2 = 0) ∧
    (∀ t1 t2 : FeatureNode, t1.fFeature.fSeqid ≠ t2.fFeature.fSeqid →
        getExonSimilarity t1 t2 = 0) := by
  refine ⟨?_, ?_, ?_, ?_⟩
  · intro t1 t2
    unfold getExonSimilarity
    by_cases h : (exonRecords t1).isEmpty = true ∨
        (exonRecords t2).isEmpty = true ∨
        t1.fFeature.fSeqid ≠ t2.fFeature.fSeqid
    · rw [if_pos h, if_pos ?_]
      rcases h with h | h | h
      · exact Or.inr (Or.inl h)
      · exact Or.inl h
      · exact Or.inr (Or.inr (fun e => h e.symm))
    · rw [if_neg h, if_neg ?_]
      · rw [totalExonOverlap_comm, Int.add_comm]
      · intro h2
        rcases h2 with h2 | h2 | h2
        · exact h (Or.inr (Or.inl h2))
        · exact h (Or.inl h2)
        · exact h (Or.inr (Or.inr (fun e => h2 e.symm)))
  · intro t1 t2 heq hne hseq hlen hpw
    unfold getExonSimilarity
    rw [if_neg ?_]
    · unfold totalExonOverlap getTranscriptExonSize
      rw [← heq,
        sum_overlap_diag (exonRecords t1)
          (fun e he => le_of_lt (hlen e he)) hpw]
      have hpos : 0 < ((exonRecords t1).map featLength).sum := by
        refine List.sum_pos _ ?_ ?_
        · intro x hx
          obtain ⟨e, he, rfl⟩ := List.mem_map.mp hx
          exact hlen e he
        · simpa using hne
      have hden : (((((exonRecords t1).map featLength).sum +
          ((exonRecords t1).map featLength).sum : Int)) : ℚ) ≠ 0 := by
        rw [Int.cast_ne_zero]
        omega
      rw [div_eq_one_iff_eq hden]
      push_cast
      ring
    · intro h2
      rcases h2 with h2 | h2 | h2
      · rw [List.isEmpty_iff] at h2
        exact hne h2
      · rw [List.isEmpty_iff] at h2
        rw [heq] at hne
        exact hne h2
      · exact h2 hseq
  · intro t1 t2 h
    unfold getExonSimilarity
    rcases h with h | h
    · rw [if_pos (Or.inl (by rw [List.isEmpty_iff]; exact h))]
    · rw [if_pos (Or.inr (Or.inl (by rw [List.isEmpty_iff]; exact h)))]
  · intro t1 t2 h
    unfold getExonSimilarity
    rw [if_pos (Or.inr (Or.inr h))]

/-- A leaf exon node on the given sequence and interval, used in the C7
witness. -/
def exonNode (seqid : String) (a b : Int) : FeatureNode :=
  .mk ⟨"exon", seqid, a, b, "+", "HAVANA", []⟩
    REMAP_STATUS_NONE TARGET_STATUS_NA 0 []

/-- A transcript on chr1 with two disjoint exons, used in the C7 witness. -/
def sampleExonTransA : FeatureNode :=
  .mk ⟨"transcript", "chr1", 100, 400, "+", "HAVANA", []⟩
    REMAP_STATUS_NONE TARGET_STATUS_NA 0
    [exonNode "chr1" 100 200, exonNode "chr1" 300 400]

/-- A distinct transcript value with the identical exon set, used in the C7
witness. -/
def sampleExonTransB : FeatureNode :=
  .mk ⟨"transcript", "chr1", 100, 400, "+", "HAVANA", []⟩
    REMAP_STATUS_FULL TARGET_STATUS_NA 1
    [exonNode "chr1" 100 200, exonNode "chr1" 300 400]

/-- A transcript with no exon children, used in the C7 witness. -/
def sampleNoExonTrans : FeatureNode :=
  .mk ⟨"transcript", "chr1", 100, 400, "+", "HAVANA", []⟩
    REMAP_STATUS_NONE TARGET_STATUS_NA 0 []

/-- A transcript on another chromosome, used in the C7 witness. -/
def sampleOtherChrTrans : FeatureNode :=
  .mk ⟨"transcript", "chr2", 100, 400, "+", "HAVANA", []⟩
    REMAP_STATUS_NONE TARGET_STATUS_NA 0 [exonNode "chr2" 100 200]

/-- Witness for claim C7: identical two-exon transcripts score exactly 1,
similarity is symmetric on a concrete pair, and the no-exon and
different-chromosome cases score 0. -/
theorem claim_C7_exon_similarity_witness :
    getExonSimilarity sampleExonTransA sampleExonTransB = 1 ∧
    getExonSimilarity sampleExonTransA sampleOtherChrTrans =
      getExonSimilarity sampleOtherChrTrans sampleExonTransA ∧
    getExonSimilarity sampleExonTransA sampleNoExonTrans = 0 ∧
    getExonSimilarity sampleExonTransA sampleOtherChrTrans = 0 := by
  refine ⟨?_, ?_, ?_, ?_⟩
  · exact claim_C7_exon_similarity.2.1 sampleExonTransA sampleExonTransB
      rfl (by decide) rfl (by decide)
      (by decide)
  · exact claim_C7_exon_similarity.1 sampleExonTransA sampleOtherChrTrans
  · exact claim_C7_exon_similarity.2.2.1 sampleExonTransA sampleNoExonTrans
      (Or.inr rfl)
  · exact claim_C7_exon_similarity.2.2.2 sampleExonTransA sampleOtherChrTrans
      (by decide)
